import Mathlib

/-
Verification of the amp-server proxy/transcoding engine (src/api/src/proxy/).

The Rust sources are shallowly embedded:
  * serde_json::Value is modelled by the inductive `Json` below; numeric
    literals are kept as their source text since the proxy never computes
    with numbers, it only copies them between envelopes.
  * byte buffers and bodies are modelled as UTF-8 text (String); the code
    decodes with from_utf8_lossy, which is the identity on valid UTF-8.
  * HTTP responses are records of status, header list and body.
  * Rust standard string operations (lines, trim, strip_prefix, contains,
    replace, to_uppercase) are re-implemented over character lists with
    the exact semantics the code relies on.
-/

/-- Model of serde_json::Value.  Object fields keep unique keys (serde_json
uses a BTreeMap; duplicate keys collapse, last write wins). -/
inductive Json where
  | null : Json
  | bool : Bool → Json
  | num : String → Json
  | str : String → Json
  | arr : List Json → Json
  | obj : List (String × Json) → Json

/-- Field lookup on a JSON object (Value::get). -/
def Json.get : Json → String → Option Json
  | .obj kvs, k => kvs.lookup k
  | _, _ => none

/-- Value::as_str. -/
def Json.asStr : Json → Option String
  | .str s => some s
  | _ => none

/-- Value::as_array. -/
def Json.asArr : Json → Option (List Json)
  | .arr xs => some xs
  | _ => none

/-- Value::as_bool. -/
def Json.asBool : Json → Option Bool
  | .bool b => some b
  | _ => none

/-- Value::is_null. -/
def Json.isNull : Json → Bool
  | .null => true
  | _ => false

/-- Insert-or-replace a key of an association list (BTreeMap::insert). -/
def assocSet {α : Type} : List (String × α) → String → α → List (String × α)
  | [], k, v => [(k, v)]
  | (k0, v0) :: rest, k, v =>
    if k0 = k then (k, v) :: rest else (k0, v0) :: assocSet rest k v

/-- Index assignment `value[key] = v` on a JSON object (the proxy only ever
applies it to objects). -/
def Json.setKey : Json → String → Json → Json
  | .obj kvs, k, v => .obj (assocSet kvs k v)
  | j, _, _ => j

/- ### Rust string primitives, over character lists -/

/-- Boolean list-prefix test. -/
def listStarts : List Char → List Char → Bool
  | [], _ => true
  | _ :: _, [] => false
  | p :: ps, c :: cs => p == c && listStarts ps cs

/-- str::strip_prefix. -/
def listStripPre : List Char → List Char → Option (List Char)
  | [], cs => some cs
  | _ :: _, [] => none
  | p :: ps, c :: cs => if p == c then listStripPre ps cs else none

/-- str::contains (substring search). -/
def listHasInfix (pat : List Char) : List Char → Bool
  | [] => listStarts pat []
  | c :: cs => listStarts pat (c :: cs) || listHasInfix pat cs

/-- Whitespace in the sense of char::is_whitespace, restricted to the ASCII
range that the proxied protocols use. -/
def rustIsWs (c : Char) : Bool :=
  [' ', '\t', '\r', '\n'].contains c

def listDropWhileWs : List Char → List Char
  | [] => []
  | c :: cs => if rustIsWs c then listDropWhileWs cs else c :: cs

/-- str::trim. -/
def listTrim (l : List Char) : List Char :=
  (listDropWhileWs (listDropWhileWs l.reverse).reverse)

/-- One step of str::replace: all (leftmost, non-overlapping) occurrences,
driven by fuel for structural recursion. -/
def listReplaceFuel (pat rep : List Char) : Nat → List Char → List Char
  | 0, s => s
  | _ + 1, [] => []
  | fuel + 1, c :: cs =>
    match listStripPre pat (c :: cs) with
    | some rest => rep ++ listReplaceFuel pat rep fuel rest
    | none => c :: listReplaceFuel pat rep fuel cs

/-- str::replace (pattern assumed non-empty, as in the source). -/
def listReplace (pat rep s : List Char) : List Char :=
  listReplaceFuel pat rep s.length s

/-- ASCII upper-casing of one character (the configured methods are ASCII). -/
def asciiUpper (c : Char) : Char :=
  if 'a' ≤ c ∧ c ≤ 'z' then Char.ofNat (c.toNat - 32) else c

def asciiLower (c : Char) : Char :=
  if 'A' ≤ c ∧ c ≤ 'Z' then Char.ofNat (c.toNat + 32) else c

/-- str::lines, by the documented semantics: split at '\n', strip one '\r'
directly before each '\n', no trailing empty line, empty input gives no
lines.  `acc` holds the current line reversed. -/
def rustLinesAux : List Char → List Char → List (List Char)
  | [], [] => []
  | [], acc => [acc.reverse]
  | '\n' :: rest, acc =>
    (match acc with
     | '\r' :: acc2 => acc2.reverse
     | _ => acc.reverse) :: rustLinesAux rest []
  | c :: rest, acc => rustLinesAux rest (c :: acc)

/- ### String-level wrappers -/

def rustLines (s : String) : List String :=
  (rustLinesAux s.data []).map List.asString

def rustTrim (s : String) : String :=
  (listTrim s.data).asString

def rustStarts (s pat : String) : Bool :=
  listStarts pat.data s.data

def rustStripPre (s pat : String) : Option String :=
  (listStripPre pat.data s.data).map List.asString

def rustContains (s pat : String) : Bool :=
  listHasInfix pat.data s.data

def rustReplace (s pat rep : String) : String :=
  (listReplace pat.data rep.data s.data).asString

def rustToUpper (s : String) : String :=
  (s.data.map asciiUpper).asString

def rustEqIgnoreAsciiCase (a b : String) : Bool :=
  a.data.map asciiLower == b.data.map asciiLower

/- ### A model of serde_json parsing (external library)

The proxy calls serde_json::from_str / from_slice.  These are modelled by a
standard recursive-descent JSON reader; fuel makes the recursion structural
so that concrete inputs evaluate inside the kernel. -/

def isJsonDigit (c : Char) : Bool := '0' ≤ c && c ≤ '9'

/-- The value of one hexadecimal digit, by code point arithmetic. -/
def hexVal (c : Char) : Option Nat :=
  let n := c.toNat
  if 48 ≤ n ∧ n ≤ 57 then some (n - 48)
  else if 97 ≤ n ∧ n ≤ 102 then some (n - 87)
  else if 65 ≤ n ∧ n ≤ 70 then some (n - 55)
  else none

/-- Combined value of four hex digits. -/
def hexQuad (a b c d : Char) : Option Nat :=
  [a, b, c, d].foldl
    (fun acc e => acc.bind (fun v => (hexVal e).map (fun w => v * 16 + w)))
    (some 0)

/-- The character each short JSON escape decodes to. -/
def escDecodeTable : List (Char × Char) :=
  [('"', '"'), ('\\', '\\'), ('/', '/'),
   ('n', '\n'), ('t', '\t'), ('r', '\r'), ('b', '\x08'), ('f', '\x0C')]

/-- Parse the body of a JSON string literal (after the opening quote). -/
def parseStrBody : Nat → List Char → Option (List Char × List Char)
  | 0, _ => none
  | _ + 1, [] => none
  | fuel + 1, c :: cs =>
    if c == '"' then some ([], cs)
    else if c == '\\' then
      match cs with
      | [] => none
      | e :: cs2 =>
        let dec : Option (Char × List Char) :=
          match escDecodeTable.lookup e with
          | some ch => some (ch, cs2)
          | none =>
            if e == 'u' then
              match cs2 with
              | h1 :: h2 :: h3 :: h4 :: cs3 =>
                (hexQuad h1 h2 h3 h4).map (fun n => (Char.ofNat n, cs3))
              | _ => none
            else none
        match dec with
        | some (ch, rest) =>
          match parseStrBody fuel rest with
          | some (s, r) => some (ch :: s, r)
          | none => none
        | none => none
    else
      match parseStrBody fuel cs with
      | some (s, r) => some (c :: s, r)
      | none => none

def isNumChar (c : Char) : Bool :=
  isJsonDigit c || c == '-' || c == '+' || c == '.' || c == 'e' || c == 'E'

/-- Lex a JSON number as its literal text. -/
def lexNum (cs : List Char) : Option (List Char × List Char) :=
  let lit := cs.takeWhile isNumChar
  let rest := cs.dropWhile isNumChar
  if lit.any isJsonDigit && (listStarts ['-'] lit || (lit.headD ' ' |> isJsonDigit)) then
    some (lit, rest)
  else none

mutual

def parseVal : Nat → List Char → Option (Json × List Char)
  | 0, _ => none
  | fuel + 1, cs0 =>
    match listDropWhileWs cs0 with
    | [] => none
    | c :: rest =>
      if c == '"' then
        match parseStrBody fuel rest with
        | some (s, r) => some (.str s.asString, r)
        | none => none
      else if c == '[' then
        match listDropWhileWs rest with
        | ']' :: r => some (.arr [], r)
        | cs2 => parseArrTail fuel cs2
      else if c == '{' then
        match listDropWhileWs rest with
        | '}' :: r => some (.obj [], r)
        | cs2 => parseObjTail fuel cs2
      else
        match listStripPre "null".data (c :: rest) with
        | some r => some (.null, r)
        | none =>
        match listStripPre "true".data (c :: rest) with
        | some r => some (.bool true, r)
        | none =>
        match listStripPre "false".data (c :: rest) with
        | some r => some (.bool false, r)
        | none =>
        match lexNum (c :: rest) with
        | some (lit, r) => some (.num lit.asString, r)
        | none => none

def parseArrTail : Nat → List Char → Option (Json × List Char)
  | 0, _ => none
  | fuel + 1, cs =>
    match parseVal fuel cs with
    | some (x, r) =>
      match listDropWhileWs r with
      | ']' :: r2 => some (.arr [x], r2)
      | ',' :: r2 =>
        match parseArrTail fuel r2 with
        | some (.arr xs, r3) => some (.arr (x :: xs), r3)
        | _ => none
      | _ => none
    | none => none

def parseObjTail : Nat → List Char → Option (Json × List Char)
  | 0, _ => none
  | fuel + 1, cs =>
    match listDropWhileWs cs with
    | '"' :: r =>
      (match parseStrBody fuel r with
       | some (k, r2) =>
         match listDropWhileWs r2 with
         | ':' :: r3 =>
           match parseVal fuel r3 with
           | some (v, r4) =>
             match listDropWhileWs r4 with
             | '}' :: r5 => some (.obj [(k.asString, v)], r5)
             | ',' :: r5 =>
               match parseObjTail fuel r5 with
               | some (.obj kvs, r6) =>
                 -- serde_json: a duplicate key keeps the later value
                 if (kvs.lookup k.asString).isSome then some (.obj kvs, r6)
                 else some (.obj ((k.asString, v) :: kvs), r6)
               | _ => none
             | _ => none
           | none => none
         | _ => none
       | none => none)
    | _ => none

end

/-- serde_json::from_str / from_slice: whole-input JSON parse. -/
def Json.parse (s : String) : Option Json :=
  match parseVal (2 * s.length + 8) s.data with
  | some (j, rest) => if listDropWhileWs rest = [] then some j else none
  | none => none

/- ### A model of serde_json serialization (external library)

serde_json::Value objects are BTreeMaps, so to_string / to_vec emits object
keys in ascending byte order.  The model emits fields in stored order
instead; no theorem below inspects the serialized text of an object, so the
ordering difference is unobservable in this development. -/

def hexDigitChar (n : Nat) : Char :=
  Char.ofNat (if n < 10 then 48 + n else 87 + n)

/-- The short escape letter each escapable character encodes to. -/
def escEncodeTable : List (Char × Char) :=
  [('"', '"'), ('\\', '\\'),
   ('\n', 'n'), ('\r', 'r'), ('\t', 't'), ('\x08', 'b'), ('\x0C', 'f')]

def escapeJsonChar (c : Char) : List Char :=
  match escEncodeTable.lookup c with
  | some e => ['\\', e]
  | none =>
    if c.toNat < 32 then
      let hi := hexDigitChar (c.toNat / 16)
      let lo := hexDigitChar (c.toNat % 16)
      ['\\', 'u', '0', '0', hi, lo]
    else [c]

def escapeJsonStr (s : String) : List Char :=
  '"' :: s.data.foldr (fun c acc => escapeJsonChar c ++ acc) ['"']

def joinCommaSep : List (List Char) → List Char
  | [] => []
  | [x] => x
  | x :: y :: rest => x ++ ',' :: joinCommaSep (y :: rest)

mutual

def serializeJson : Json → List Char
  | .null => "null".data
  | .bool true => "true".data
  | .bool false => "false".data
  | .num lit => lit.data
  | .str s => escapeJsonStr s
  | .arr xs => '[' :: serializeItems xs ++ [']']
  | .obj kvs => '{' :: serializeMembers kvs ++ ['}']

def serializeItems : List Json → List Char
  | [] => []
  | [x] => serializeJson x
  | x :: y :: rest => serializeJson x ++ ',' :: serializeItems (y :: rest)

def serializeMembers : List (String × Json) → List Char
  | [] => []
  | [(k, v)] => escapeJsonStr k ++ ':' :: serializeJson v
  | (k, v) :: kv2 :: rest =>
    escapeJsonStr k ++ ':' :: serializeJson v ++ ',' :: serializeMembers (kv2 :: rest)

end

/-- serde_json::to_string / to_vec. -/
def Json.serialize (j : Json) : String := (serializeJson j).asString

/- ### SSEFramer (service.rs:181-241, 390-407) -/

/-- parse_sse_line (service.rs:390-407). -/
def parse_sse_line (line : String) : Option String :=
  let line := rustTrim line
  if line = "" then none
  else
    match rustStripPre line "data: " with
    | some data_content =>
      if data_content = "[DONE]" then some "[DONE]" else some data_content
    | none =>
      match rustStripPre line "data:" with
      | some stripped => some stripped
      | none => some line

/-- One chunk arriving in the SSE loop (service.rs:203-217): append to the
buffer, split into lines; when more than one line is present, emit every
line but the last and retain the last line as the new buffer. -/
def sse_step (buffer chunk : String) : String × List String :=
  let buf := buffer ++ chunk
  let lines_vec := rustLines buf
  if lines_vec.length > 1 then
    (lines_vec.getLastD "", lines_vec.dropLast.filterMap parse_sse_line)
  else
    (buf, [])

/-- Feed a list of chunks; returns the final buffer and the events emitted. -/
def sse_feed : String → List String → String × List String
  | buffer, [] => (buffer, [])
  | buffer, c :: cs =>
    let p := sse_step buffer c
    let q := sse_feed p.1 cs
    (q.1, p.2 ++ q.2)

/-- End-of-stream flush (service.rs:226-233). -/
def sse_flush (buffer : String) : List String :=
  if buffer = "" then [] else (rustLines buffer).filterMap parse_sse_line

/-- The complete SSE framing loop on a chunked byte stream: the ordered
sequence of payload strings it emits. -/
def sse_process (chunks : List String) : List String :=
  let p := sse_feed "" chunks
  p.2 ++ sse_flush p.1

/- ### Configuration (config.rs) -/

/-- RetrySettings (config.rs:15-21).  backoff_multiplier is an f64 in the
source; it is modelled as a rational, which represents every finite double
exactly and orders them identically (NaN is outside the model). -/
structure RetrySettings where
  max_attempts : Nat
  base_delay_ms : Nat
  max_delay_ms : Nat
  backoff_multiplier : Rat

inductive ResponseType where
  | json
  | sse
  | stream
  | html
deriving DecidableEq

/-- EndpointConfig (config.rs:45-69).  The custom_headers HashMap is a list
of pairs; header names are compared verbatim (the configuration uses
lower-case names throughout). -/
structure EndpointConfig where
  path : String
  target_url : String
  method : String
  response_type : ResponseType
  custom_headers : List (String × String)
  forward_request_headers : List String
  forward_response_headers : List String
  enabled : Bool
  timeout : Option Nat
  retry : Option RetrySettings

structure ProxyConfig where
  endpoints : List EndpointConfig
  global_timeout : Option Nat
  global_retry : Option RetrySettings

/-- RetrySettings::validate (config.rs:530-548). -/
def RetrySettings.validate (r : RetrySettings) : Except String Unit :=
  if r.max_attempts = 0 ∨ r.max_attempts > 10 then
    .error "Max retry attempts must be between 1 and 10"
  else if r.base_delay_ms = 0 ∨ r.base_delay_ms > 60000 then
    .error "Base delay must be between 1 and 60000 ms"
  else if r.max_delay_ms < r.base_delay_ms ∨ r.max_delay_ms > 600000 then
    .error "Max delay must be between base_delay_ms and 600000 ms"
  else if r.backoff_multiplier < 1 ∨ r.backoff_multiplier > 10 then
    .error "Backoff multiplier must be between 1.0 and 10.0"
  else .ok ()

def valid_methods : List String :=
  ["GET", "POST", "PUT", "DELETE", "PATCH", "HEAD", "OPTIONS"]

/-- Models url::Url::parse plus the scheme check of config.rs:458-467
(external url crate): the target must be an http or https URL with a
non-empty remainder.  The validation theorems below only rely on this check
being a boolean gate, not on its exact extent. -/
def target_url_ok (s : String) : Bool :=
  (rustStarts s "http://" && s.length > 7) || (rustStarts s "https://" && s.length > 8)

/-- EndpointConfig::validate (config.rs:443-507). -/
def EndpointConfig.validate (e : EndpointConfig) : Except String Unit :=
  if e.path = "" then .error "Endpoint path cannot be empty"
  else if ¬ rustStarts e.path "/" then
    .error ("Endpoint path must start with / but got " ++ e.path)
  else if e.target_url = "" then .error "Target URL cannot be empty"
  else if ¬ target_url_ok e.target_url then
    .error ("Invalid target URL " ++ e.target_url)
  else if ¬ valid_methods.contains (rustToUpper e.method) then
    .error ("Invalid HTTP method " ++ e.method)
  else if (match e.timeout with
           | some t => decide (t = 0 ∨ t > 3600)
           | none => false) then
    .error "Endpoint timeout must be between 1 and 3600 seconds"
  else
    match (match e.retry with | some r => r.validate | none => .ok ()) with
    | .error msg => .error msg
    | .ok _ =>
      if e.custom_headers.any (fun kv => rustTrim kv.1 == "") then
        .error "Custom header name cannot be empty"
      else if e.forward_request_headers.any (fun h => rustTrim h == "") then
        .error "Forward request header name cannot be empty"
      else if e.forward_response_headers.any (fun h => rustTrim h == "") then
        .error "Forward response header name cannot be empty"
      else .ok ()

/-- The per-endpoint loop of ProxyConfig::validate (config.rs:413-420):
validate each endpoint, then reject a path already seen. -/
def validateEndpointsLoop : List EndpointConfig → List String → Except String Unit
  | [], _ => .ok ()
  | e :: rest, seen =>
    match e.validate with
    | .error msg => .error msg
    | .ok _ =>
      if seen.contains e.path then .error ("Duplicate endpoint path: " ++ e.path)
      else validateEndpointsLoop rest (e.path :: seen)

/-- ProxyConfig::validate (config.rs:406-434). -/
def ProxyConfig.validate (c : ProxyConfig) : Except String Unit :=
  if c.endpoints.isEmpty then .error "No endpoints configured"
  else
    match validateEndpointsLoop c.endpoints [] with
    | .error msg => .error msg
    | .ok _ =>
      if (match c.global_timeout with
          | some t => decide (t = 0 ∨ t > 3600)
          | none => false) then
        .error "Global timeout must be between 1 and 3600 seconds"
      else
        match c.global_retry with
        | some r => r.validate
        | none => .ok ()

/-- ProxyConfig::enabled_endpoints (config.rs:437-439). -/
def ProxyConfig.enabled_endpoints (c : ProxyConfig) : List EndpointConfig :=
  c.endpoints.filter (·.enabled)

/-- The route one endpoint contributes in create_router (service.rs:33-68):
only GET, POST, PUT and DELETE are mounted; any other method is skipped
with a warning. -/
def route_for (e : EndpointConfig) : Option (String × EndpointConfig) :=
  if rustToUpper e.method = "GET" then some (e.path, e)
  else if rustToUpper e.method = "POST" then some (e.path, e)
  else if rustToUpper e.method = "PUT" then some (e.path, e)
  else if rustToUpper e.method = "DELETE" then some (e.path, e)
  else none

/-- create_router (service.rs:33-68): the set of mounted routes. -/
def create_router (c : ProxyConfig) : List (String × EndpointConfig) :=
  c.enabled_endpoints.filterMap route_for

/- ### HTTP response values and header policy (service.rs) -/

/-- A buffered HTTP response: upstream (reqwest) and downstream (axum)
responses are both records of status, headers and body text.  Streamed
bodies are represented by their full text; chunk-boundary behaviour of the
SSE loop is studied separately through `sse_process`. -/
structure HttpResponse where
  status : Nat
  headers : List (String × String)
  body : String

/-- HeaderMap::extend: later entries overwrite same-named ones. -/
def headerExtend (base add : List (String × String)) : List (String × String) :=
  add.foldl (fun acc kv => assocSet acc kv.1 kv.2) base

/-- The forward_response_headers subset collection used by every response
handler: for each configured name, copy the upstream header when present. -/
def forwardedHeaders (config : EndpointConfig) (up : List (String × String)) :
    List (String × String) :=
  config.forward_response_headers.foldl
    (fun acc name =>
      match up.lookup name with
      | some v => assocSet acc name v
      | none => acc) []

/-- handle_json_response (service.rs:295-346). -/
def handle_json_response (response : HttpResponse) (config : EndpointConfig) :
    Except (Nat × String) HttpResponse :=
  let response_headers := forwardedHeaders config response.headers
  match Json.parse response.body with
  | some json_data =>
    .ok { status := response.status
        , headers := headerExtend [("content-type", "application/json")] response_headers
        , body := json_data.serialize }
  | none =>
    .ok { status := response.status
        , headers := headerExtend [("content-type", "text/plain; charset=utf-8")] response_headers
        , body := response.body }

/-- handle_html_response (service.rs:348-388). -/
def handle_html_response (response : HttpResponse) (config : EndpointConfig) :
    Except (Nat × String) HttpResponse :=
  let response_headers := forwardedHeaders config response.headers
  .ok { status := response.status
      , headers := headerExtend [("content-type", "text/html")] response_headers
      , body := response.body }

/-- handle_stream_response (service.rs:243-293).  The pass-through and the
buffered branch carry the same bytes in the buffered model, but the
content-type sniff is kept for fidelity. -/
def handle_stream_response (response : HttpResponse) (config : EndpointConfig) :
    Except (Nat × String) HttpResponse :=
  let hdrs := config.forward_response_headers.foldl
    (fun acc name =>
      match response.headers.lookup name with
      | some v =>
        if ¬ (rustStarts name "connection" || rustStarts name "transfer-encoding") then
          assocSet acc name v
        else acc
      | none => acc) []
  let is_streaming :=
    match response.headers.lookup "content-type" with
    | some ct => rustContains ct "text/event-stream" || rustContains ct "application/stream"
    | none => false
  if is_streaming then
    .ok { status := response.status, headers := hdrs, body := response.body }
  else
    .ok { status := response.status, headers := hdrs, body := response.body }

/-- handle_sse_response (service.rs:181-241): an axum Sse response (status
200), forwarded headers, body re-framed from the parsed events.  The body
arriving as one chunk is the reference behaviour; arbitrary chunkings go
through `sse_process` directly. -/
def handle_sse_response (response : HttpResponse) (config : EndpointConfig) : HttpResponse :=
  let response_headers := forwardedHeaders config response.headers
  { status := 200
  , headers := headerExtend [("content-type", "text/event-stream")] response_headers
  , body := String.join ((sse_process [response.body]).map (fun d => "data: " ++ d ++ "\n\n")) }

/-- StatusCode::is_success. -/
def is2xx (status : Nat) : Bool := 200 ≤ status && status ≤ 299

/-- The response half of handle_proxy_request (service.rs:148-159): any
non-2xx upstream status is replaced by a 502 with a generic message before
any response handler runs; otherwise dispatch on the configured response
type. -/
def proxy_handle_response (config : EndpointConfig) (upstream : HttpResponse) :
    Except (Nat × String) HttpResponse :=
  if ¬ is2xx upstream.status then .error (502, "Upstream server error")
  else
    match config.response_type with
    | .sse => .ok (handle_sse_response upstream config)
    | .stream => handle_stream_response upstream config
    | .json => handle_json_response upstream config
    | .html => handle_html_response upstream config

/- ### ProtocolConverter (a): Responses to Chat Completions (service.rs:409-549) -/

/-- One input item of the Responses body becomes one chat message when it
has a string role and any content (service.rs:534-543). -/
def chatMsgOf (item : Json) : Option Json :=
  match (item.get "role").bind Json.asStr with
  | some role =>
    match item.get "content" with
    | some content => some (Json.obj [("role", Json.str role), ("content", content)])
    | none => none
  | none => none

/-- convert_responses_to_chat_completions (service.rs:510-549). -/
def convert_responses_to_chat_completions (responses_request : Json) : Except String Json :=
  let c0 := Json.obj []
  let c1 := match responses_request.get "model" with
            | some model => c0.setKey "model" model
            | none => c0
  let c2 := match responses_request.get "stream" with
            | some stream => c1.setKey "stream" stream
            | none => c1
  let c3 := match responses_request.get "max_completion_tokens" with
            | some max_tokens => c2.setKey "max_tokens" max_tokens
            | none => c2
  let c4 := match responses_request.get "temperature" with
            | some temperature => c3.setKey "temperature" temperature
            | none => c3
  let c5 := match (responses_request.get "input").bind Json.asArr with
            | some input => c4.setKey "messages" (Json.arr (input.filterMap chatMsgOf))
            | none => c4
  .ok c5

/-- handle_o3_model_conversion (service.rs:410-450). -/
def handle_o3_model_conversion (config : EndpointConfig) (body_bytes : String) :
    Except (Nat × String) (EndpointConfig × String × Bool × Option Json) :=
  if ¬ rustContains config.path "/v1/responses" then
    .ok (config, body_bytes, false, none)
  else
    match Json.parse body_bytes with
    | none => .ok (config, body_bytes, false, none)
    | some request_json =>
      let model := ((request_json.get "model").bind Json.asStr).getD ""
      if ¬ rustStarts model "o3" then
        .ok (config, body_bytes, false, none)
      else
        match convert_responses_to_chat_completions request_json with
        | .error e => .error (400, "Failed to convert request: " ++ e)
        | .ok chat_request =>
          let chat_config :=
            { config with
              target_url := rustReplace config.target_url "/v1/responses" "/v1/chat/completions"
              path := rustReplace config.path "/v1/responses" "/v1/chat/completions" }
          .ok (chat_config, chat_request.serialize, true, some request_json)

/- ### ProtocolConverter (b): Responses to Gemini (service.rs:452-811) -/

/-- content_value_to_text (service.rs:792-811). -/
def content_value_to_text (content : Json) : Option String :=
  match content.asStr with
  | some s => some s
  | none =>
    match content.asArr with
    | some blocks =>
      let acc := blocks.foldl
        (fun acc v =>
          match (v.get "text").bind Json.asStr with
          | some t => acc ++ t
          | none =>
            match (v.get "content").bind Json.asStr with
            | some t => acc ++ t
            | none => acc) ""
      if acc ≠ "" then some acc else some content.serialize
    | none => some content.serialize

/-- The input loop of convert_responses_to_gemini_request
(service.rs:738-763), keeping push order: returns (system_texts, contents). -/
def gemini_collect : List Json → List String × List Json
  | [] => ([], [])
  | item :: rest =>
    let p := gemini_collect rest
    let role := ((item.get "role").bind Json.asStr).getD "user"
    let content_val := (item.get "content").getD (Json.str "")
    if rustEqIgnoreAsciiCase role "system" then
      match content_value_to_text content_val with
      | some txt => (txt :: p.1, p.2)
      | none => p
    else
      let gemini_role := if role = "assistant" then "model" else "user"
      let text := (content_value_to_text content_val).getD ""
      (p.1, Json.obj [("role", Json.str gemini_role),
                      ("parts", Json.arr [Json.obj [("text", Json.str text)]])] :: p.2)

/-- convert_responses_to_gemini_request (service.rs:734-790). -/
def convert_responses_to_gemini_request (responses_request : Json) : Except String Json :=
  let items := (((responses_request.get "input").bind Json.asArr)).getD []
  let p := gemini_collect items
  let g0 : List (String × Json) := []
  let g1 := match responses_request.get "temperature" with
            | some t => assocSet g0 "temperature" t
            | none => g0
  let g2 := match responses_request.get "max_completion_tokens" with
            | some mt => assocSet g1 "maxOutputTokens" mt
            | none => g1
  let g3 := match responses_request.get "top_p" with
            | some tp => assocSet g2 "topP" tp
            | none => g2
  let g4 := match responses_request.get "top_k" with
            | some tk => assocSet g3 "topK" tk
            | none => g3
  let req0 := Json.obj [("contents", Json.arr p.2)]
  let req1 := if ¬ g4.isEmpty then req0.setKey "generationConfig" (Json.obj g4) else req0
  let req2 :=
    if ¬ p.1.isEmpty then
      req1.setKey "systemInstruction"
        (Json.obj [("parts", Json.arr [Json.obj [("text", Json.str (String.intercalate "\n\n" p.1))]])])
    else req1
  .ok req2

/-- str::trim_end_matches for the single character '/'. -/
def rustTrimEndSlash (s : String) : String :=
  ((s.data.reverse.dropWhile (· == '/')).reverse).asString

/-- handle_google_responses_conversion (service.rs:453-507). -/
def handle_google_responses_conversion (config : EndpointConfig) (body_bytes : String) :
    Except (Nat × String) (EndpointConfig × String × Bool × Option Json) :=
  let is_google_responses :=
    rustContains config.path "/api/provider/google/" && rustContains config.path "/responses"
  if ¬ is_google_responses then
    .ok (config, body_bytes, false, none)
  else
    match Json.parse body_bytes with
    | none => .ok (config, body_bytes, false, none)
    | some request_json =>
      let model := ((request_json.get "model").bind Json.asStr).getD ""
      if model = "" then
        .ok (config, body_bytes, false, none)
      else
        let is_stream := ((request_json.get "stream").bind Json.asBool).getD false
        match convert_responses_to_gemini_request request_json with
        | .error e => .error (400, "Failed to convert Google Responses request: " ++ e)
        | .ok gemini_request =>
          let base := rustTrimEndSlash config.target_url
          let op := if is_stream then "streamGenerateContent" else "generateContent"
          let config2 :=
            { config with
              target_url := base ++ "/" ++ model ++ ":" ++ op
              path := "/api/provider/google/v1beta/models/" ++ model ++ ":" ++ op }
          .ok (config2, gemini_request.serialize, true, some request_json)

/- ### Streaming reverse conversion (service.rs:551-731, 813-868) -/

/-- convert_chat_chunk_to_responses_chunk (service.rs:822-868). -/
def convert_chat_chunk_to_responses_chunk (chat_chunk : Json) : Except String Json :=
  let fromChoices : Option Json :=
    match (chat_chunk.get "choices").bind Json.asArr with
    | some (first_choice :: _) =>
      (match (first_choice.get "delta").bind (fun d => d.get "content") with
       | some content =>
         some (Json.obj [("type", Json.str "response.output_text.delta"), ("delta", content)])
       | none =>
         match first_choice.get "finish_reason" with
         | some finish_reason =>
           if ¬ finish_reason.isNull then
             some (Json.obj [("type", Json.str "response.completed"),
               ("response", Json.obj [
                 ("id", (chat_chunk.get "id").getD (Json.str "response-unknown")),
                 ("object", Json.str "response"),
                 ("created", (chat_chunk.get "created").getD (Json.num "0")),
                 ("model", (chat_chunk.get "model").getD (Json.str "o3")),
                 ("usage", (chat_chunk.get "usage").getD Json.null)])])
           else none
         | none => none)
    | _ => none
  match fromChoices with
  | some evt => .ok evt
  | none =>
    if (chat_chunk.get "id").isSome && (chat_chunk.get "choices").isSome then
      .ok (Json.obj [("type", Json.str "response.created"),
        ("response", Json.obj [
          ("id", (chat_chunk.get "id").getD (Json.str "response-unknown")),
          ("object", Json.str "response"),
          ("created", (chat_chunk.get "created").getD (Json.num "0")),
          ("model", (chat_chunk.get "model").getD (Json.str "o3"))])])
    else .error "Unknown chunk format"

/-- One emitted line of a converted stream: the [DONE] sentinel line, a
data line carrying a JSON event, or a blank line. -/
inductive SseOut where
  | done : SseOut
  | data : Json → SseOut
  | blank : SseOut

/-- How a converted line is written back into the SSE body. -/
def renderSseOut : SseOut → String
  | .done => "data: [DONE]"
  | .data j => "data: " ++ j.serialize
  | .blank => ""

/-- The per-line conversion of the o3 streaming branch
(service.rs:584-601). -/
def chat_convert_line (line : String) : List SseOut :=
  match rustStripPre line "data: " with
  | some data_part =>
    if data_part = "[DONE]" then [.done]
    else
      match Json.parse data_part with
      | some chunk =>
        match convert_chat_chunk_to_responses_chunk chunk with
        | .ok responses_chunk => [.data responses_chunk]
        | .error _ => []
      | none => []
  | none => if line = "" then [.blank] else []

def chat_convert_out (body_text : String) : List SseOut :=
  ((rustLines body_text).map chat_convert_line).flatten

def chat_stream_body (body_text : String) : String :=
  String.intercalate "\n\n" ((chat_convert_out body_text).map renderSseOut)

/-- The fixed header set of a converted streaming response
(service.rs:605-611 and 676-684). -/
def sse_conv_headers : List (String × String) :=
  [("content-type", "text/event-stream"),
   ("cache-control", "no-cache"),
   ("connection", "keep-alive")]

/-- convert_chat_completions_to_responses_format (service.rs:552-612).
convert_chat_completion_to_responses_json (service.rs:814-819) is a
pass-through of the parsed JSON. -/
def convert_chat_completions_to_responses_format (response : HttpResponse)
    (is_streaming : Bool) : Except (Nat × String) HttpResponse :=
  if ¬ is_streaming then
    match Json.parse response.body with
    | none => .error (500, "Failed to parse response JSON")
    | some chat_response =>
      .ok { status := 200
          , headers := [("content-type", "application/json")]
          , body := chat_response.serialize }
  else
    .ok { status := 200, headers := sse_conv_headers, body := chat_stream_body response.body }

/-- maybe_gemini_created_event (service.rs:687-701).  Note: the function is
stateless; it fires for every chunk that has a candidates key. -/
def maybe_gemini_created_event (chunk : Json) : Option Json :=
  if (chunk.get "candidates").isSome then
    some (Json.obj [("type", Json.str "response.created"),
      ("response", Json.obj [
        ("id", (chunk.get "id").getD (Json.str "response-unknown")),
        ("object", Json.str "response"),
        ("created", (chunk.get "created").getD (Json.num "0")),
        ("model", (chunk.get "model").getD (Json.str "gemini"))])])
  else none

/-- gemini_chunk_finished (service.rs:703-712). -/
def gemini_chunk_finished (chunk : Json) : Bool :=
  match (chunk.get "candidates").bind Json.asArr with
  | some (first :: _) =>
    match first.get "finishReason" with
    | some fr => ¬ fr.isNull
    | none => false
  | _ => false

/-- extract_gemini_text_delta (service.rs:714-731). -/
def extract_gemini_text_delta (chunk : Json) : Option String :=
  let acc :=
    match (chunk.get "candidates").bind Json.asArr with
    | some (first :: _) =>
      match first.get "content" with
      | some content =>
        match (content.get "parts").bind Json.asArr with
        | some parts =>
          parts.foldl
            (fun acc p =>
              match (p.get "text").bind Json.asStr with
              | some t => acc ++ t
              | none => acc) ""
        | none => ""
      | none => ""
    | _ => ""
  if acc = "" then none else some acc

/-- The per-line conversion of the Gemini streaming branch
(service.rs:631-674): a created event (stateless check), then a delta
event, then a completed event, as each applies. -/
def gemini_convert_line (line : String) : List SseOut :=
  match rustStripPre line "data: " with
  | some data_part =>
    if data_part = "[DONE]" then [.done]
    else
      match Json.parse data_part with
      | some chunk =>
        (match maybe_gemini_created_event chunk with
         | some created_evt => [.data created_evt]
         | none => [])
        ++ (match extract_gemini_text_delta chunk with
            | some delta_text =>
              [.data (Json.obj [("type", Json.str "response.output_text.delta"),
                                ("delta", Json.str delta_text)])]
            | none => [])
        ++ (if gemini_chunk_finished chunk then
              [.data (Json.obj [("type", Json.str "response.completed"),
                ("response", Json.obj [
                  ("id", (chunk.get "id").getD (Json.str "response-unknown")),
                  ("object", Json.str "response"),
                  ("created", (chunk.get "created").getD (Json.num "0")),
                  ("model", (chunk.get "model").getD (Json.str "gemini")),
                  ("usage", (chunk.get "usageMetadata").getD Json.null)])])]
            else [])
      | none => []
  | none => if line = "" then [.blank] else []

def gemini_convert_out (body_text : String) : List SseOut :=
  ((rustLines body_text).map gemini_convert_line).flatten

def gemini_stream_body (body_text : String) : String :=
  String.intercalate "\n\n" ((gemini_convert_out body_text).map renderSseOut)

/-- convert_gemini_to_responses_format (service.rs:615-685). -/
def convert_gemini_to_responses_format (response : HttpResponse)
    (is_streaming : Bool) : Except (Nat × String) HttpResponse :=
  if ¬ is_streaming then .ok response
  else
    .ok { status := 200, headers := sse_conv_headers, body := gemini_stream_body response.body }

/-- Is a converted line a response.created event? -/
def isCreatedEvent : SseOut → Bool
  | .data j =>
    match j.get "type" with
    | some (Json.str t) => t == "response.created"
    | _ => false
  | _ => false

/- ### Sample configurations used by the concrete theorems -/

/-- A Stream-type endpoint on the OpenAI responses route (config.rs:109-130). -/
def cfgO3Route : EndpointConfig :=
  { path := "/api/provider/openai/v1/responses"
  , target_url := "https://api-key.info/v1/responses"
  , method := "POST"
  , response_type := .stream
  , custom_headers := []
  , forward_request_headers := ["authorization"]
  , forward_response_headers := ["content-type"]
  , enabled := true
  , timeout := none
  , retry := none }

/-- A Google-provider responses route. -/
def cfgGoogleRoute : EndpointConfig :=
  { cfgO3Route with
    path := "/api/provider/google/v1beta/responses"
    target_url := "https://api-key.info/v1beta/models" }

/-- A Json-type endpoint. -/
def cfgJson : EndpointConfig :=
  { cfgO3Route with
    path := "/api/provider/openai/v1/models"
    response_type := .json
    forward_response_headers := [] }

/-- An endpoint whose method is PATCH. -/
def cfgPatch : EndpointConfig := { cfgO3Route with method := "PATCH" }

/-- A well-formed one-endpoint configuration. -/
def cfgOk : ProxyConfig :=
  { endpoints := [{ cfgO3Route with
      retry := some { max_attempts := 3, base_delay_ms := 100
                    , max_delay_ms := 10000, backoff_multiplier := 2 } }]
  , global_timeout := some 30
  , global_retry := some { max_attempts := 3, base_delay_ms := 100
                         , max_delay_ms := 10000, backoff_multiplier := 2 } }

/- ### C1 -/

/-- C1: the SSE framing loop is claimed to be chunk-boundary invariant.  It
is not: when a chunk ends exactly at a line boundary, the framer still
retains the final (complete) line as the pending buffer and drops its
terminating newline, so the next chunk is glued onto it.  Feeding
"a\nb\nc" as the chunks ["a\nb\n", "c"] yields the payloads ["a", "bc"],
while the same bytes as one chunk yield ["a", "b", "c"]. -/
theorem c1_sse_chunk_boundary_bug :
    "a\nb\n" ++ "c" = "a\nb\nc" ∧
    sse_process ["a\nb\n", "c"] = ["a", "bc"] ∧
    sse_process ["a\nb\nc"] = ["a", "b", "c"] ∧
    sse_process ["a\nb\n", "c"] ≠ sse_process ["a\nb\nc"] :=
  ⟨rfl, rfl, rfl, by decide⟩

/- ### C2 -/

/-- C2: at most one response.created event is claimed per converted Gemini
stream.  maybe_gemini_created_event keeps no state, so every data: chunk
carrying a candidates key emits another response.created: a two-chunk
stream in which both chunks carry candidates produces two such events. -/
theorem c2_gemini_created_not_once :
    (gemini_convert_out
      "data: \x7b\"candidates\":[]\x7d\ndata: \x7b\"candidates\":[]\x7d").countP
      isCreatedEvent = 2 :=
  rfl

/- ### C3 -/

/-- C3 counterexample: a request body that is not JSON on a
conversion-eligible route is not rejected with a 400; both converters
return it unchanged for upstream forwarding (the pass-through branches at
service.rs:422 and service.rs:466). -/
theorem c3_non_json_passthrough_cex :
    handle_o3_model_conversion cfgO3Route "not json" =
      .ok (cfgO3Route, "not json", false, none) ∧
    handle_google_responses_conversion cfgGoogleRoute "not json" =
      .ok (cfgGoogleRoute, "not json", false, none) :=
  ⟨rfl, rfl⟩

/-- C3 amended: a request body that does not parse as JSON is always passed
through unchanged by both conversion entry points, with no conversion
flagged; a 400 can only arise after the body parsed and a converter
failed. -/
theorem c3_non_json_passthrough (config : EndpointConfig) (body : String)
    (h : Json.parse body = none) :
    handle_o3_model_conversion config body = .ok (config, body, false, none) ∧
    handle_google_responses_conversion config body = .ok (config, body, false, none) := by
  constructor
  · simp [handle_o3_model_conversion, h]
  · simp [handle_google_responses_conversion, h]

/-- C3 witness: the amended theorem applied at a concrete non-JSON body on
the OpenAI responses route. -/
theorem c3_non_json_passthrough_witness :
    handle_o3_model_conversion cfgO3Route "x" = .ok (cfgO3Route, "x", false, none) ∧
    handle_google_responses_conversion cfgO3Route "x" = .ok (cfgO3Route, "x", false, none) :=
  c3_non_json_passthrough cfgO3Route "x" rfl

/- ### C4 -/

/-- C4 counterexample: a non-2xx upstream response never reaches the JSON
transcoder; handle_proxy_request (service.rs:148-151) replaces it with a
502 and a generic message, so a 404 with the non-JSON body "oops" is not
returned as text/plain with status 404. -/
theorem c4_non2xx_never_reaches_json_cex :
    proxy_handle_response cfgJson { status := 404, headers := [], body := "oops" } =
      .error (502, "Upstream server error") ∧
    (proxy_handle_response cfgJson { status := 404, headers := [], body := "oops" }).isOk
      = false :=
  ⟨rfl, rfl⟩

/-- C4 amended: on a Json route a non-2xx upstream status yields a 502 with
a generic message; a 2xx upstream response whose body does not parse as
JSON is returned with its body unchanged, its original status, and a
default content-type of text/plain (forwarded upstream headers may
overwrite it). -/
theorem c4_json_fallback (config : EndpointConfig) (u : HttpResponse)
    (hjson : config.response_type = .json) :
    (¬ is2xx u.status = true →
      proxy_handle_response config u = .error (502, "Upstream server error")) ∧
    (is2xx u.status = true → Json.parse u.body = none →
      proxy_handle_response config u = .ok
        { status := u.status
        , headers := headerExtend [("content-type", "text/plain; charset=utf-8")]
            (forwardedHeaders config u.headers)
        , body := u.body }) := by
  constructor
  · intro hbad
    unfold proxy_handle_response
    simp [hbad]
  · intro hgood hparse
    unfold proxy_handle_response
    simp only [hgood, hjson]
    simp [handle_json_response, hparse]

/-- C4 witness: the amended theorem applied at a concrete Json route and a
concrete upstream response. -/
theorem c4_json_fallback_witness :
    (¬ is2xx 404 = true →
      proxy_handle_response cfgJson { status := 404, headers := [], body := "oops" } =
        .error (502, "Upstream server error")) ∧
    (is2xx 404 = true → Json.parse "oops" = none →
      proxy_handle_response cfgJson { status := 404, headers := [], body := "oops" } = .ok
        { status := 404
        , headers := headerExtend [("content-type", "text/plain; charset=utf-8")]
            (forwardedHeaders cfgJson [])
        , body := "oops" }) :=
  c4_json_fallback cfgJson { status := 404, headers := [], body := "oops" } rfl

/- ### Object-update lookup lemmas -/

theorem lookup_assocSet {α : Type} (l : List (String × α)) (k k2 : String) (v : α) :
    (assocSet l k v).lookup k2 = if k2 = k then some v else l.lookup k2 := by
  induction l with
  | nil =>
    by_cases h : k2 = k
    · simp [assocSet, List.lookup, h]
    · simp [assocSet, List.lookup, h, beq_false_of_ne h]
  | cons kv rest ih =>
    obtain ⟨k0, v0⟩ := kv
    simp only [assocSet]
    by_cases h0 : k0 = k
    · subst h0
      by_cases h2 : k2 = k0
      · simp [List.lookup, h2]
      · simp [List.lookup, h2, beq_false_of_ne h2]
    · rw [if_neg h0]
      by_cases h2 : k2 = k0
      · have h3 : ¬ k2 = k := by rw [h2]; exact h0
        simp [List.lookup, h2, h3, h0]
      · simp [List.lookup, beq_false_of_ne h2, h2, ih]

theorem get_setKey (kvs : List (String × Json)) (k k2 : String) (v : Json) :
    ((Json.obj kvs).setKey k v).get k2 = if k2 = k then some v else (Json.obj kvs).get k2 := by
  simp [Json.setKey, Json.get, lookup_assocSet]

/- ### C5 -/

/-- C5: the Responses-to-Chat-Completions forward conversion copies model,
stream and temperature, renames max_completion_tokens to max_tokens, maps
each input item that has a string role and a content into a messages
entry, and the output has no input key. -/
theorem c5_responses_to_chat (req : Json) (m : String) (items : List Json)
    (hmodel : req.get "model" = some (Json.str m))
    (_ho3 : rustStarts m "o3" = true)
    (hinput : req.get "input" = some (Json.arr items)) :
    (convert_responses_to_chat_completions req).map (fun out =>
      (out.get "model", out.get "stream", out.get "max_tokens",
       out.get "temperature", out.get "input", out.get "messages")) =
    .ok (some (Json.str m), req.get "stream", req.get "max_completion_tokens",
         req.get "temperature", none, some (Json.arr (items.filterMap chatMsgOf))) := by
  rcases hs : req.get "stream" with _ | s <;>
  rcases hmt : req.get "max_completion_tokens" with _ | mt <;>
  rcases ht : req.get "temperature" with _ | t <;>
  simp only [convert_responses_to_chat_completions, hmodel, hs, hmt, ht, hinput,
             Option.bind, Json.asArr, Except.map] <;>
  simp [Json.setKey, assocSet, Json.get, List.lookup]

/-- The spec example request for C5: model o3-mini, one user input item,
stream false, temperature 0.2. -/
def exO3Req : Json := .obj
  [("model", .str "o3-mini"),
   ("input", .arr [.obj [("role", .str "user"), ("content", .str "hi")]]),
   ("stream", .bool false),
   ("temperature", .num "0.2")]

/-- C5 witness: the theorem at the spec example, with the converted values
evaluated: messages is [(role user, content hi)], model o3-mini,
temperature 0.2, stream false, and no input key. -/
theorem c5_responses_to_chat_witness :
    (convert_responses_to_chat_completions exO3Req).map (fun out =>
      (out.get "model", out.get "stream", out.get "max_tokens",
       out.get "temperature", out.get "input", out.get "messages")) =
    .ok (some (Json.str "o3-mini"), some (Json.bool false), none,
         some (Json.num "0.2"), none,
         some (Json.arr [Json.obj [("role", Json.str "user"), ("content", Json.str "hi")]])) :=
  c5_responses_to_chat exO3Req "o3-mini"
    [Json.obj [("role", Json.str "user"), ("content", Json.str "hi")]] rfl rfl rfl

/- ### C6 -/

/-- Spec-side predicate: an input item whose role is system
(case-insensitively), defaulting to user when absent. -/
def specIsSystem (item : Json) : Bool :=
  rustEqIgnoreAsciiCase (((item.get "role").bind Json.asStr).getD "user") "system"

/-- Spec-side: the flattened text of an input item. -/
def specItemText (item : Json) : String :=
  (content_value_to_text ((item.get "content").getD (Json.str ""))).getD ""

/-- Spec-side: the Gemini contents entry a non-system item maps to. -/
def specGeminiEntry (item : Json) : Json :=
  Json.obj
    [("role", Json.str
        (if (((item.get "role").bind Json.asStr).getD "user") = "assistant"
         then "model" else "user")),
     ("parts", Json.arr [Json.obj [("text", Json.str (specItemText item))]])]

theorem content_value_to_text_isSome (c : Json) :
    (content_value_to_text c).isSome = true := by
  cases c <;> simp only [content_value_to_text, Json.asStr, Json.asArr] <;>
    first
      | rfl
      | (split <;> simp)

theorem gemini_collect_eq (items : List Json) :
    gemini_collect items =
      ((items.filter specIsSystem).map specItemText,
       (items.filter (fun i => ¬ specIsSystem i)).map specGeminiEntry) := by
  induction items with
  | nil => rfl
  | cons item rest ih =>
    by_cases hsys : specIsSystem item = true
    · have hsys2 := hsys
      simp only [specIsSystem] at hsys2
      rcases hc : content_value_to_text ((item.get "content").getD (Json.str "")) with _ | txt
      · exact absurd (content_value_to_text_isSome ((item.get "content").getD (Json.str "")))
          (by simp [hc])
      · simp [gemini_collect, hsys2, hc, ih, List.filter_cons, hsys, specItemText]
    · have hsys2 : rustEqIgnoreAsciiCase (((item.get "role").bind Json.asStr).getD "user")
          "system" = false := by
        simpa [specIsSystem] using hsys
      simp [gemini_collect, hsys2, ih, List.filter_cons, hsys, specGeminiEntry, specItemText]

/-- C6: the Responses-to-Gemini forward conversion maps each non-system
input item to a contents entry (role model for assistant, user otherwise,
parts a single text block), and joins the texts of the system items with a
blank line into systemInstruction.parts[0].text, that key being present
exactly when a system item exists. -/
theorem c6_responses_to_gemini (req : Json) (items : List Json)
    (hinput : req.get "input" = some (Json.arr items)) :
    (convert_responses_to_gemini_request req).map (fun out =>
      (out.get "contents", out.get "systemInstruction")) =
    .ok (some (Json.arr ((items.filter (fun i => ¬ specIsSystem i)).map specGeminiEntry)),
         if ((items.filter specIsSystem).map specItemText).isEmpty then none
         else some (Json.obj [("parts", Json.arr [Json.obj
           [("text", Json.str (String.intercalate "\n\n"
             ((items.filter specIsSystem).map specItemText)))]])])) := by
  rcases h1 : req.get "temperature" with _ | t1 <;>
  rcases h2 : req.get "max_completion_tokens" with _ | t2 <;>
  rcases h3 : req.get "top_p" with _ | t3 <;>
  rcases h4 : req.get "top_k" with _ | t4 <;>
  rcases hsys : items.filter specIsSystem with _ | ⟨s0, srest⟩ <;>
  simp only [convert_responses_to_gemini_request, hinput, gemini_collect_eq, h1, h2, h3, h4,
             hsys, List.map, List.isEmpty, Option.bind, Option.getD, Json.asArr, Except.map] <;>
  simp [Json.setKey, assocSet, Json.get, List.lookup]

/-- The spec example request for C6: one system item and one user item. -/
def exGeminiReq : Json := .obj
  [("input", .arr
    [.obj [("role", .str "system"), ("content", .str "be terse")],
     .obj [("role", .str "user"), ("content", .str "hi")]])]

/-- C6 witness: the theorem at the spec example, with the converted values
evaluated: contents is the single user entry and
systemInstruction.parts[0].text is the system text. -/
theorem c6_responses_to_gemini_witness :
    (convert_responses_to_gemini_request exGeminiReq).map (fun out =>
      (out.get "contents", out.get "systemInstruction")) =
    .ok (some (Json.arr [Json.obj [("role", Json.str "user"),
           ("parts", Json.arr [Json.obj [("text", Json.str "hi")]])]]),
         some (Json.obj [("parts", Json.arr [Json.obj
           [("text", Json.str "be terse")]])])) :=
  c6_responses_to_gemini exGeminiReq
    [Json.obj [("role", Json.str "system"), ("content", Json.str "be terse")],
     Json.obj [("role", Json.str "user"), ("content", Json.str "hi")]] rfl

/- ### C7 -/

/-- C7: a Chat-Completions streaming chunk whose choices[0].delta.content
is present converts to a response.output_text.delta event carrying that
content. -/
theorem c7_chat_chunk_delta (chunk first_choice d v : Json) (rest : List Json)
    (hchoices : chunk.get "choices" = some (Json.arr (first_choice :: rest)))
    (hdelta : first_choice.get "delta" = some d)
    (hcontent : d.get "content" = some v) :
    convert_chat_chunk_to_responses_chunk chunk =
      .ok (Json.obj [("type", Json.str "response.output_text.delta"), ("delta", v)]) := by
  simp only [convert_chat_chunk_to_responses_chunk, hchoices, hdelta, hcontent,
             Option.bind, Json.asArr]

/-- The spec example chunk for C7. -/
def exChatChunk : Json := .obj
  [("id", .str "x"), ("created", .num "1"), ("model", .str "o3"),
   ("choices", .arr [.obj [("delta", .obj [("content", .str "ab")])]])]

/-- C7 witness: the theorem at the spec example chunk. -/
theorem c7_chat_chunk_delta_witness :
    convert_chat_chunk_to_responses_chunk exChatChunk =
      .ok (Json.obj [("type", Json.str "response.output_text.delta"),
                     ("delta", Json.str "ab")]) :=
  c7_chat_chunk_delta exChatChunk
    (Json.obj [("delta", Json.obj [("content", Json.str "ab")])])
    (Json.obj [("content", Json.str "ab")]) (Json.str "ab") [] rfl rfl rfl

/- ### C8 -/

/-- Spec-side bounds on an optional timeout (seconds). -/
def timeoutOk : Option Nat → Prop
  | some t => 1 ≤ t ∧ t ≤ 3600
  | none => True

/-- Spec-side bounds on an optional retry setting. -/
def retryOk : Option RetrySettings → Prop
  | some r =>
      1 ≤ r.max_attempts ∧ r.max_attempts ≤ 10 ∧
      1 ≤ r.base_delay_ms ∧ r.base_delay_ms ≤ 60000 ∧
      r.base_delay_ms ≤ r.max_delay_ms ∧ r.max_delay_ms ≤ 600000 ∧
      1 ≤ r.backoff_multiplier ∧ r.backoff_multiplier ≤ 10
  | none => True

theorem retry_validate_bounds (r : RetrySettings) (h : r.validate = .ok ()) :
    retryOk (some r) := by
  simp only [RetrySettings.validate] at h
  split_ifs at h with h1 h2 h3 h4
  push_neg at h1 h2 h3 h4
  exact ⟨by omega, h1.2, by omega, h2.2, by omega, h3.2, h4.1, h4.2⟩

theorem ep_validate_props (e : EndpointConfig) (h : e.validate = .ok ()) :
    rustStarts e.path "/" = true ∧
    valid_methods.contains (rustToUpper e.method) = true ∧
    timeoutOk e.timeout ∧ retryOk e.retry := by
  simp only [EndpointConfig.validate] at h
  split_ifs at h with h1 h2 h3 h4 h5 h6 h7 h8 h9
  · split at h <;> simp_all
  · split at h <;> simp_all
  · split at h <;> simp_all
  · refine ⟨h2, h5, ?_, ?_⟩
    · rcases ht : e.timeout with _ | t
      · trivial
      · rw [ht] at h6
        simp only [decide_eq_true_eq] at h6
        exact ⟨by omega, by omega⟩
    · split at h
      · simp at h
      · rename_i a heq
        split at heq
        · rename_i r heq2
          rw [heq2]
          cases a
          exact retry_validate_bounds r heq
        · rename_i heq2
          rw [heq2]
          trivial

theorem loop_ok_props (l : List EndpointConfig) : ∀ seen : List String,
    validateEndpointsLoop l seen = .ok () →
    (∀ e ∈ l, e.validate = .ok ()) ∧ (l.map (·.path)).Nodup ∧
    (∀ p ∈ l.map (·.path), p ∉ seen) := by
  induction l with
  | nil => intro seen _; simp
  | cons e rest ih =>
    intro seen h
    rw [validateEndpointsLoop] at h
    split at h
    · simp at h
    · rename_i u heq
      cases u
      split_ifs at h with hc
      obtain ⟨hall, hnodup, hnotin⟩ := ih (e.path :: seen) h
      have hmem : ∀ p ∈ rest.map (·.path), p ≠ e.path ∧ p ∉ seen := by
        intro p hp
        have h3 := hnotin p hp
        simp only [List.mem_cons, not_or] at h3
        exact h3
      refine ⟨?_, ?_, ?_⟩
      · intro e2 he2
        rcases List.mem_cons.mp he2 with rfl | h2
        · exact heq
        · exact hall e2 h2
      · refine List.nodup_cons.mpr ⟨?_, hnodup⟩
        intro habs
        exact (hmem e.path habs).1 rfl
      · intro p hp
        rw [List.map_cons] at hp
        rcases List.mem_cons.mp hp with rfl | h2
        · simpa using hc
        · exact (hmem p h2).2

/-- C8: every bound the configuration validator promises: a configuration
accepted by ProxyConfig::validate has a non-empty endpoint list, pairwise
distinct paths, slash-prefixed paths, supported methods (case-insensitively),
timeouts within 1..3600 s and retry settings within their bounds, at both
endpoint and global level.  Equivalently, violating any of those makes
validation (and so RouteTable construction) fail. -/
theorem c8_validate_bounds (c : ProxyConfig) (h : c.validate = .ok ()) :
    c.endpoints ≠ [] ∧
    (c.endpoints.map (·.path)).Nodup ∧
    (∀ e ∈ c.endpoints,
      rustStarts e.path "/" = true ∧
      valid_methods.contains (rustToUpper e.method) = true ∧
      timeoutOk e.timeout ∧ retryOk e.retry) ∧
    timeoutOk c.global_timeout ∧ retryOk c.global_retry := by
  simp only [ProxyConfig.validate] at h
  split_ifs at h with h1 h2
  · split at h <;> simp_all
  · split at h
    · simp at h
    · rename_i a heq
      cases a
      obtain ⟨hall, hnodup, _⟩ := loop_ok_props c.endpoints [] heq
      refine ⟨by simpa using h1, hnodup,
        fun e he => ep_validate_props e (hall e he), ?_, ?_⟩
      · rcases ht : c.global_timeout with _ | t
        · trivial
        · rw [ht] at h2
          simp only [decide_eq_true_eq] at h2
          exact ⟨by omega, by omega⟩
      · split at h
        · rename_i r heq2
          rw [heq2]
          exact retry_validate_bounds r h
        · rename_i heq2
          rw [heq2]
          trivial

/-- C8 witness: the binder-free consequences of the theorem at a concrete
valid configuration. -/
theorem c8_validate_bounds_witness :
    cfgOk.endpoints ≠ [] ∧ (cfgOk.endpoints.map (·.path)).Nodup ∧
    timeoutOk cfgOk.global_timeout ∧ retryOk cfgOk.global_retry :=
  ⟨(c8_validate_bounds cfgOk rfl).1, (c8_validate_bounds cfgOk rfl).2.1,
   (c8_validate_bounds cfgOk rfl).2.2.2.1, (c8_validate_bounds cfgOk rfl).2.2.2.2⟩

/- ### C9 -/

theorem route_for_some (a : EndpointConfig) (pr : String × EndpointConfig)
    (h : route_for a = some pr) : pr.2 = a := by
  simp only [route_for] at h
  split_ifs at h
  · rw [← Option.some.inj h]
  · rw [← Option.some.inj h]
  · rw [← Option.some.inj h]
  · rw [← Option.some.inj h]

/-- C9: PATCH, HEAD and OPTIONS pass the method check of configuration
validation, yet create_router mounts no route for an endpoint carrying
them, so no mounted route ever refers to such an endpoint. -/
theorem c9_validated_but_unrouted (e : EndpointConfig)
    (h : rustToUpper e.method = "PATCH" ∨ rustToUpper e.method = "HEAD" ∨
         rustToUpper e.method = "OPTIONS") :
    valid_methods.contains (rustToUpper e.method) = true ∧
    route_for e = none ∧
    ∀ c : ProxyConfig, ∀ pr ∈ create_router c, pr.2 ≠ e := by
  have hnone : route_for e = none := by
    rcases h with h | h | h <;> simp [route_for, h]
  refine ⟨?_, hnone, ?_⟩
  · rcases h with h | h | h <;> rw [h] <;> rfl
  · intro c pr hpr heq
    simp only [create_router] at hpr
    obtain ⟨a, _, hra⟩ := List.mem_filterMap.mp hpr
    have h2 : pr.2 = a := route_for_some a pr hra
    rw [h2] at heq
    rw [heq, hnone] at hra
    exact Option.noConfusion hra

/-- C9 witness: the theorem at a concrete PATCH endpoint. -/
theorem c9_validated_but_unrouted_witness :
    valid_methods.contains (rustToUpper cfgPatch.method) = true ∧
    route_for cfgPatch = none :=
  ⟨(c9_validated_but_unrouted cfgPatch (Or.inl rfl)).1,
   (c9_validated_but_unrouted cfgPatch (Or.inl rfl)).2.1⟩

/- ### C10 -/

/-- C10: when a conversion fired and the original request declared
streaming, both reverse converters discard the transcoded response's
status and headers and return status 200 with exactly the three fixed SSE
headers, whatever the input response carried. -/
theorem c10_stream_conversion_response (r : HttpResponse) :
    convert_chat_completions_to_responses_format r true =
      .ok { status := 200, headers := sse_conv_headers, body := chat_stream_body r.body } ∧
    convert_gemini_to_responses_format r true =
      .ok { status := 200, headers := sse_conv_headers, body := gemini_stream_body r.body } ∧
    sse_conv_headers =
      [("content-type", "text/event-stream"), ("cache-control", "no-cache"),
       ("connection", "keep-alive")] := by
  refine ⟨?_, ?_, rfl⟩
  · simp [convert_chat_completions_to_responses_format]
  · simp [convert_gemini_to_responses_format]
